import Mathlib

set_option maxRecDepth 8000

/-
  Shallow embedding of the gesture-recognition engine of library-buddy,
  src/src/js/hand.js.  The file contains two concatenated evolutions of the
  module; this development embeds the later one (lines 175-441), which is the
  one the specification describes: exponential cursor smoothing, the
  browse-mode fist/grab state machine with hold frames and cooldown, the
  edge-triggered open-hand release, the scan-mode pinch detector, the
  scan-mode wave detector, and the frame-pump backpressure flag.

  Modelling conventions:
  * JS numbers are embedded as rationals (exact arithmetic).
  * The source compares Math.hypot(dx,dy,dz) < c; since both sides are
    nonnegative this is equivalent to dx^2+dy^2+dz^2 < c^2, so the embedding
    compares squared distances against squared thresholds.
  * results?.multiHandLandmarks?.[0] is an Option (List Landmark): none is the
    "no hand" frame; some l is a present landmark array of any length.
    Reading landmarks[i] past the end of the array yields undefined in JS and
    the subsequent .x property access throws; the embedding returns the
    FrameOutcome.thrown constructor carrying the state mutations and callback
    invocations that happened before the throw.
  * window.innerWidth / window.innerHeight / Date.now() are the parameters
    w, h, now.
-/

namespace Hand

/-- One MediaPipe landmark point: x, y normalized to the image, z relative depth. -/
structure Landmark where
  x : ℚ
  y : ℚ
  z : ℚ
deriving DecidableEq

/-- One entry of handPositionHistory: {x, y, timestamp}. -/
structure PosSample where
  x : ℚ
  y : ℚ
  timestamp : ℚ
deriving DecidableEq

/-- The mutable module-level state of hand.js (second evolution) that the
per-frame handler onResults reads and writes. -/
structure HandState where
  lastGrabFrames : ℕ
  lastFistState : Bool
  grabCooldownFrames : ℕ
  smoothedX : ℚ
  smoothedY : ℚ
  handPositionHistory : List PosSample
  waveCooldownFrames : ℕ
  browseMode : Bool
deriving DecidableEq

/-- The callbacks invoked while processing one frame: onMoveCb with the
smoothed coordinate, and the onGrabCb / onOpenHandCb / onWaveCb firings. -/
structure Events where
  cursorMove : Option (ℚ × ℚ)
  grab : Bool
  openHand : Bool
  wave : Bool
deriving DecidableEq

def noEvents : Events := ⟨none, false, false, false⟩

/-- Result of one onResults call: ok, or thrown (a TypeError escaped);
both carry the state mutations and callbacks that already happened. -/
inductive FrameOutcome where
  | ok (s : HandState) (e : Events)
  | thrown (s : HandState) (e : Events)
deriving DecidableEq

def FrameOutcome.state : FrameOutcome → HandState
  | .ok s _ => s
  | .thrown s _ => s

def FrameOutcome.events : FrameOutcome → Events
  | .ok _ e => e
  | .thrown _ e => e

def FrameOutcome.threw : FrameOutcome → Bool
  | .ok _ _ => false
  | .thrown _ _ => true

-- Constants of the second evolution (hand.js lines 188-202).
def GRAB_THRESHOLD : ℚ := 22/100
def GRAB_HOLD_FRAMES : ℕ := 3
def GRAB_COOLDOWN : ℕ := 25
def SMOOTHING_FACTOR : ℚ := 65/100
def WAVE_HISTORY_SIZE : ℕ := 12
def WAVE_THRESHOLD : ℚ := 35/100
def WAVE_COOLDOWN : ℕ := 75
def PINCH_THRESHOLD : ℚ := 45/1000

/-- Square of a rational, used to compare squared distances with squared
thresholds. -/
def sq (q : ℚ) : ℚ := q * q

/-- Squared euclidean distance between two landmarks; the source computes
Math.hypot(dx, dy, dz) and compares it with a positive threshold, which is
equivalent to comparing this square with the squared threshold. -/
def distSq (a b : Landmark) : ℚ :=
  sq (a.x - b.x) + sq (a.y - b.y) + sq (a.z - b.z)

/-- hand.js lines 313-317: remap palm x/y from [0.1, 0.9] to screen size and
clamp to the screen bounds. -/
def remapTarget (w h : ℚ) (palm : Landmark) : ℚ × ℚ :=
  let normalizedX := (palm.x - 1/10) / (8/10)
  let normalizedY := (palm.y - 1/10) / (8/10)
  (max 0 (min w (normalizedX * w)), max 0 (min h (normalizedY * h)))

/-- hand.js lines 320-321: one exponential smoothing update,
smoothed + (target - smoothed) * SMOOTHING_FACTOR. -/
def smoothStep (target s : ℚ) : ℚ :=
  s + (target - s) * SMOOTHING_FACTOR

/-- hand.js lines 388-390: all four fingertips within GRAB_THRESHOLD of the
palm and the thumb within GRAB_THRESHOLD * 1.3. -/
def fistCheck (palm i8 i12 i16 i20 thumb : Landmark) : Bool :=
  let closedCount :=
    ([i8, i12, i16, i20].filter (fun t => distSq t palm < sq GRAB_THRESHOLD)).length
  let thumbClosed := distSq thumb palm < sq (GRAB_THRESHOLD * (13/10))
  closedCount == 4 && thumbClosed

/-- hand.js lines 328-331: push the new sample at the end of the history and
shift the oldest one out when the capacity is exceeded. -/
def pushWindow (cap : ℕ) (now : ℚ) (palm : Landmark)
    (hist : List PosSample) : List PosSample :=
  let hist0 := hist ++ [⟨palm.x, palm.y, now⟩]
  if hist0.length > cap then hist0.tail else hist0

/-- hand.js lines 327-350, executed only when browseMode is false: push the
palm position, evict the oldest entry past WAVE_HISTORY_SIZE, then either
burn one cooldown frame or, with a full window, fire the wave when the
oldest-to-newest displacement is mostly horizontal and fast enough.
Returns the updated state and whether onWaveCb fired. -/
def waveStep (now : ℚ) (palm : Landmark) (s : HandState) : HandState × Bool :=
  let hist1 := pushWindow WAVE_HISTORY_SIZE now palm s.handPositionHistory
  if s.waveCooldownFrames > 0 then
    ({ s with handPositionHistory := hist1,
              waveCooldownFrames := s.waveCooldownFrames - 1 }, false)
  else if hist1.length ≥ WAVE_HISTORY_SIZE then
    match hist1.head?, hist1.getLast? with
    | some oldest, some newest =>
      if |newest.x - oldest.x| > WAVE_THRESHOLD ∧ |newest.y - oldest.y| < 12/100 ∧
         newest.timestamp - oldest.timestamp < 600 then
        ({ s with handPositionHistory := [], waveCooldownFrames := WAVE_COOLDOWN }, true)
      else
        ({ s with handPositionHistory := hist1 }, false)
    | _, _ => ({ s with handPositionHistory := hist1 }, false)
  else
    ({ s with handPositionHistory := hist1 }, false)

/-- hand.js lines 353-420, the browse-mode branch after the cooldown gate:
read the four fingertips and the thumb (a missing landmark throws on its
first property access), classify the fist, and run the hold / fire /
cooldown and edge-triggered release logic. -/
def browseGrabStep (landmarks : List Landmark) (palm : Landmark)
    (s : HandState) (e : Events) : FrameOutcome :=
  match landmarks[8]?, landmarks[12]?, landmarks[16]?, landmarks[20]? with
  | some i8, some i12, some i16, some i20 =>
    match landmarks[4]? with
    | some thumb =>
      if fistCheck palm i8 i12 i16 i20 thumb then
        let n := s.lastGrabFrames + 1
        if n = GRAB_HOLD_FRAMES then
          .ok { s with lastGrabFrames := 0,
                       grabCooldownFrames := GRAB_COOLDOWN,
                       lastFistState := true }
             { e with grab := true }
        else
          .ok { s with lastGrabFrames := n } e
      else
        if s.lastFistState then
          .ok { s with lastFistState := false, lastGrabFrames := 0 }
             { e with openHand := true }
        else
          .ok { s with lastGrabFrames := 0 } e
    | none => .thrown s e
  | _, _, _, _ => .thrown s e

/-- hand.js lines 421-439, the scan-mode pinch branch: thumb tip to index
fingertip distance below 0.045, with the hold counter and fire at
GRAB_HOLD_FRAMES, but no cooldown write and no release event. -/
def scanPinchStep (landmarks : List Landmark)
    (s : HandState) (e : Events) : FrameOutcome :=
  match landmarks[8]?, landmarks[4]? with
  | some indexTip, some thumbTip =>
    if distSq indexTip thumbTip < sq PINCH_THRESHOLD then
      let n := s.lastGrabFrames + 1
      if n = GRAB_HOLD_FRAMES then
        .ok { s with lastGrabFrames := 0 } { e with grab := true }
      else
        .ok { s with lastGrabFrames := n } e
    else
      .ok { s with lastGrabFrames := 0 } e
  | _, _ => .thrown s e

/-- hand.js lines 302-440: the per-frame handler.  none models the falsy
landmarks value (no hand); a present array of the wrong length proceeds and
throws at the first out-of-range property access, after the cursor callback
(and, in scan mode, the wave block) already ran. -/
def onResults (w h now : ℚ) (results : Option (List Landmark))
    (s : HandState) : FrameOutcome :=
  match results with
  | none => .ok s noEvents
  | some landmarks =>
    match landmarks[0]? with
    | none => .thrown s noEvents
    | some palmCenter =>
      let target := remapTarget w h palmCenter
      let sx := smoothStep target.1 s.smoothedX
      let sy := smoothStep target.2 s.smoothedY
      let s1 := { s with smoothedX := sx, smoothedY := sy }
      let e1 : Events := { noEvents with cursorMove := some (sx, sy) }
      let ws := if s1.browseMode then (s1, false) else waveStep now palmCenter s1
      let s2 := ws.1
      let e2 := { e1 with wave := ws.2 }
      if s2.browseMode then
        if s2.grabCooldownFrames > 0 then
          .ok { s2 with grabCooldownFrames := s2.grabCooldownFrames - 1 } e2
        else
          browseGrabStep landmarks palmCenter s2 e2
      else
        scanPinchStep landmarks s2 e2

/-- The module-level initializers of hand.js lines 186-207. -/
def initialState : HandState :=
  { lastGrabFrames := 0
    lastFistState := false
    grabCooldownFrames := 0
    smoothedX := 0
    smoothedY := 0
    handPositionHistory := []
    waveCooldownFrames := 0
    browseMode := false }

/-- hand.js lines 274-300: destroyHands resets every per-session field. -/
def destroyHands (_s : HandState) : HandState :=
  { lastGrabFrames := 0
    lastFistState := false
    grabCooldownFrames := 0
    browseMode := false
    handPositionHistory := []
    waveCooldownFrames := 0
    smoothedX := 0
    smoothedY := 0 }

/-- hand.js line 215. -/
def setBrowseMode (enabled : Bool) (s : HandState) : HandState :=
  { s with browseMode := enabled }

/-- One delivered frame: the Date.now() timestamp and the landmark payload. -/
structure FrameInput where
  now : ℚ
  results : Option (List Landmark)

/-- Run one frame; a thrown TypeError escapes onResults but the state
mutations made before it persist (module-level variables), and the frame
pump catches the error, so processing continues at the mutated state. -/
def runStep (w h : ℚ) (s : HandState) (f : FrameInput) : HandState × Events :=
  let r := onResults w h f.now f.results s
  (r.state, r.events)

/-- Feed a list of frames, collecting the per-frame events. -/
def runFrames (w h : ℚ) : HandState → List FrameInput → HandState × List Events
  | s, [] => (s, [])
  | s, f :: fs =>
    let p := runStep w h s f
    let q := runFrames w h p.1 fs
    (q.1, p.2 :: q.2)

def runEvents (w h : ℚ) (s : HandState) (fs : List FrameInput) : List Events :=
  (runFrames w h s fs).2

def countGrabs (es : List Events) : ℕ := es.countP (fun e => e.grab)

def countOpenHands (es : List Events) : ℕ := es.countP (fun e => e.openHand)

def countWaves (es : List Events) : ℕ := es.countP (fun e => e.wave)

-- Concrete landmark frames used in the scenario theorems.

/-- A closed-fist frame: all 21 landmarks at the palm position, so every
fingertip distance is 0 < GRAB_THRESHOLD and the thumb is closed.  In scan
mode the same frame is also a pinch (distance 0 < 0.045). -/
def fistLandmarks : List Landmark :=
  List.replicate 21 ⟨1/2, 1/2, 0⟩

/-- An open-hand frame: palm at (0.5, 0.5), every other landmark at
(0.9, 0.5), distance 0.4 from the palm, beyond both fist thresholds. -/
def openLandmarks : List Landmark :=
  ⟨1/2, 1/2, 0⟩ :: List.replicate 20 ⟨9/10, 1/2, 0⟩

/-- The engine state right after initHands with browse mode switched on. -/
def browseStart : HandState := setBrowseMode true initialState

/-- The per-frame geometric fist classification of hand.js lines 360-390,
false when a needed landmark is missing. -/
def isFistFrame (landmarks : List Landmark) : Bool :=
  match landmarks[0]?, landmarks[8]?, landmarks[12]?, landmarks[16]?,
        landmarks[20]?, landmarks[4]? with
  | some palm, some i8, some i12, some i16, some i20, some thumb =>
      fistCheck palm i8 i12 i16 i20 thumb
  | _, _, _, _, _, _ => false

-- The swipe-up detector (claim C1).  app.js line 6 imports onSwipeUp from
-- hand.js and registers a callback on it, but no evolution of hand.js under
-- src implements it, so the detector is modelled from the specification.

/-- State of the swipe-up detector: its own bounded position history and its
own cooldown counter, independent of the other detectors. -/
structure SwipeState where
  history : List PosSample
  cooldown : ℕ
deriving DecidableEq

def SWIPE_THRESHOLD : ℚ := 25/100
def SWIPE_HORIZ_BOUND : ℚ := 15/100
def SWIPE_MAX_TIME : ℚ := 400

/-- Modelled from the spec: the swipe-up detector is missing from hand.js
under src (app.js imports onSwipeUp but no evolution of hand.js defines it).
Spec 4.3: maintain a bounded position history; when the window is full and
the detector's own cooldown is zero, compare the oldest and newest samples;
swipe-up is active only in Browse mode and fires when the upward vertical
displacement oldest.y - newest.y exceeds 0.25, the horizontal displacement
stays below 0.15, and the elapsed time is under 400 ms; on fire it clears
the history and starts its own cooldown.  The window capacity and cooldown
length are the parameters histSize and coolN since the spec gives only
ranges for them. -/
def swipeUpStep (histSize coolN : ℕ) (now : ℚ) (palm : Landmark)
    (browse : Bool) (st : SwipeState) : SwipeState × Bool :=
  if browse = false then (st, false)
  else
    let hist1 := pushWindow histSize now palm st.history
    if st.cooldown > 0 then
      ({ history := hist1, cooldown := st.cooldown - 1 }, false)
    else if hist1.length ≥ histSize then
      match hist1.head?, hist1.getLast? with
      | some oldest, some newest =>
        if oldest.y - newest.y > SWIPE_THRESHOLD ∧
           |newest.x - oldest.x| < SWIPE_HORIZ_BOUND ∧
           newest.timestamp - oldest.timestamp < SWIPE_MAX_TIME then
          ({ history := [], cooldown := coolN }, true)
        else
          ({ history := hist1, cooldown := st.cooldown }, false)
      | _, _ => ({ history := hist1, cooldown := st.cooldown }, false)
    else
      ({ history := hist1, cooldown := st.cooldown }, false)

-- The frame pump (claim C9), hand.js lines 248-264: the Camera onFrame
-- callback sends a frame to the recognizer only when no previous frame is
-- still being processed.

/-- State of the frame pump: whether hands is non-null, the isProcessing
flag, the frames currently being processed, and every frame ever sent. -/
structure PumpState where
  handsPresent : Bool
  isProcessing : Bool
  inFlight : List ℕ
  sent : List ℕ
deriving DecidableEq

/-- A pump event: the camera delivers frame id, or the in-flight
hands.send call resolves (the finally clause of onFrame). -/
inductive PumpEvent where
  | deliver (id : ℕ)
  | complete
deriving DecidableEq

/-- hand.js lines 249-260: on a delivered frame, if hands is non-null and
isProcessing is false, set isProcessing and send the frame; otherwise the
frame is dropped and nothing happens.  On completion of the send, the
finally clause clears isProcessing and the frame leaves flight. -/
def pumpStep (s : PumpState) (e : PumpEvent) : PumpState :=
  match e with
  | .deliver id =>
      if s.handsPresent = true ∧ s.isProcessing = false then
        { s with isProcessing := true,
                 inFlight := s.inFlight ++ [id],
                 sent := s.sent ++ [id] }
      else s
  | .complete =>
      { s with isProcessing := false, inFlight := s.inFlight.tail }

/-- Pump state after initHands: hands set, isProcessing false (line 209). -/
def pumpInit : PumpState := ⟨true, false, [], []⟩

def runPump (evs : List PumpEvent) : PumpState := evs.foldl pumpStep pumpInit

/-- The cursor smoother iterated on a constant target (claim C7): the
sequence of outputs produced by holding the target for n frames. -/
def iterSmooth (target s0 : ℚ) : ℕ → ℚ
  | 0 => s0
  | n + 1 => smoothStep target (iterSmooth target s0 n)

-- Concrete frame runs used by the scenario theorems.

/-- 56 consecutive fist frames in browse mode; timestamps are irrelevant to
the grab machine (the wave history is not touched in browse mode). -/
def fistRun : List Events :=
  runEvents 800 600 browseStart (List.replicate 56 ⟨0, some fistLandmarks⟩)

/-- 6 consecutive pinch frames in scan mode. -/
def pinchRun : List Events :=
  runEvents 800 600 initialState (List.replicate 6 ⟨0, some fistLandmarks⟩)

/-- A confirmed fist (3 frames) followed by one open frame, in browse mode. -/
def fistOpenRun : List Events :=
  runEvents 800 600 browseStart
    (List.replicate 3 ⟨0, some fistLandmarks⟩ ++ [⟨3, some openLandmarks⟩])

/-- A confirmed fist (3 frames) followed by 26 open frames in browse mode:
the release is deferred to the first open frame after the cooldown. -/
def releaseRun : List Events :=
  runEvents 800 600 browseStart
    (List.replicate 3 ⟨0, some fistLandmarks⟩ ++
     List.replicate 26 ⟨0, some openLandmarks⟩)

-- Theorems

/-- C4: in Browse mode with no cooldown active, a fist held for exactly
GRAB_HOLD_FRAMES consecutive frames fires exactly one onGrab, on the
GRAB_HOLD_FRAMES-th fist frame; holding the fist through the whole cooldown
fires nothing further; after the cooldown expires, onGrab fires again once
the hold threshold is re-met from the reset counter (here on frame 31 =
3 + 25 cooldown frames + 3 fresh hold frames), and over 56 fist frames
exactly two grabs fire in total. -/
theorem grab_debounce_scenario :
    countGrabs (fistRun.take 2) = 0 ∧ countGrabs (fistRun.take 3) = 1 ∧
    countGrabs (fistRun.take 30) = 1 ∧ countGrabs (fistRun.take 31) = 2 ∧
    countGrabs fistRun = 2 := by
  norm_num [countGrabs, fistRun, runEvents, runFrames, runStep, onResults,
    browseGrabStep, fistCheck, remapTarget, smoothStep, distSq, sq,
    fistLandmarks, initialState, browseStart, setBrowseMode, noEvents,
    FrameOutcome.state, FrameOutcome.events, GRAB_THRESHOLD, GRAB_HOLD_FRAMES,
    GRAB_COOLDOWN, List.replicate]

/-- C3 counterexample: in Scan mode there is no post-fire cooldown: six
consecutive pinch frames fire onGrab twice (frames 3 and 6), the second fire
only three frames after the first, well inside the 25-frame cooldown the
claim asserts, and the cooldown counter is never started. -/
theorem scan_pinch_refires_counterexample :
    (pinchRun.map (fun e => e.grab)) =
      [false, false, true, false, false, true] ∧
    countGrabs pinchRun = 2 ∧
    (runFrames 800 600 initialState
      (List.replicate 6 ⟨0, some fistLandmarks⟩)).1.grabCooldownFrames = 0 := by
  norm_num [countGrabs, pinchRun, runEvents, runFrames, runStep, onResults,
    scanPinchStep, waveStep, pushWindow, remapTarget, smoothStep, distSq, sq,
    fistLandmarks, initialState, noEvents, FrameOutcome.state,
    FrameOutcome.events, PINCH_THRESHOLD, GRAB_HOLD_FRAMES, WAVE_HISTORY_SIZE,
    List.replicate]

/-- C5 counterexample: a confirmed fist (grab fired on frame 3) followed by
an open frame is one confirmed fist-to-open transition, yet onOpenHand fires
zero times, because frame 4 falls inside the grab cooldown and the handler
returns before the release branch. -/
theorem openHand_transition_count_counterexample :
    isFistFrame fistLandmarks = true ∧ isFistFrame openLandmarks = false ∧
    countGrabs fistOpenRun = 1 ∧ countOpenHands fistOpenRun = 0 := by
  norm_num [countGrabs, countOpenHands, fistOpenRun, runEvents, runFrames,
    runStep, onResults, browseGrabStep, isFistFrame, fistCheck, remapTarget,
    smoothStep, distSq, sq, fistLandmarks, openLandmarks, initialState,
    browseStart, setBrowseMode, noEvents, FrameOutcome.state,
    FrameOutcome.events, GRAB_THRESHOLD, GRAB_HOLD_FRAMES, GRAB_COOLDOWN,
    List.replicate]

/-- C2: the code does not treat a present frame with fewer than 21 landmarks
as absent: on a frame carrying a single landmark the handler fires
onCursorMove, mutates the smoother and the wave position history, and then
throws a TypeError reading the missing index fingertip. -/
theorem malformed_frame_fires_and_throws :
    (onResults 800 600 0 (some [⟨1/2, 1/2, 0⟩]) initialState).threw = true ∧
    (onResults 800 600 0 (some [⟨1/2, 1/2, 0⟩]) initialState).events.cursorMove =
      some (260, 195) ∧
    (onResults 800 600 0 (some [⟨1/2, 1/2, 0⟩]) initialState).state.handPositionHistory =
      [⟨1/2, 1/2, 0⟩] ∧
    (onResults 800 600 0 (some [⟨1/2, 1/2, 0⟩]) initialState).state.smoothedX = 260 := by
  norm_num [onResults, scanPinchStep, waveStep, pushWindow, remapTarget,
    smoothStep, distSq, sq, initialState, noEvents, FrameOutcome.threw,
    FrameOutcome.state, FrameOutcome.events, WAVE_HISTORY_SIZE,
    SMOOTHING_FACTOR]

/-- C6 counterexample: the smoother is not re-seeded on (re)initialization:
after destroyHands, the first processed frame with the palm at (0.5, 0.5)
remaps to the clamped target (400, 300), but the emitted cursor sample is
(260, 195) = 0.65 * target, stepped from (0, 0). -/
theorem smoother_not_reseeded_counterexample :
    (onResults 800 600 0 (some fistLandmarks) (destroyHands browseStart)).events.cursorMove =
      some (260, 195) ∧
    remapTarget 800 600 ⟨1/2, 1/2, 0⟩ = (400, 300) ∧
    ((260 : ℚ), (195 : ℚ)) ≠ ((400 : ℚ), (300 : ℚ)) := by
  norm_num [onResults, scanPinchStep, waveStep, pushWindow, remapTarget,
    smoothStep, distSq, sq, fistLandmarks, destroyHands, browseStart,
    setBrowseMode, initialState, noEvents, FrameOutcome.state,
    FrameOutcome.events, WAVE_HISTORY_SIZE, PINCH_THRESHOLD, GRAB_HOLD_FRAMES,
    SMOOTHING_FACTOR, List.replicate]

/-- C7: holding a constant target, each smoothed output lies between the
previous output and the target (never overshoots), and the distance to the
target strictly decreases while it is nonzero. -/
theorem smoothing_monotone_no_overshoot (t s0 : ℚ) (n : ℕ) :
    ((iterSmooth t s0 n ≤ iterSmooth t s0 (n + 1) ∧ iterSmooth t s0 (n + 1) ≤ t) ∨
      (t ≤ iterSmooth t s0 (n + 1) ∧ iterSmooth t s0 (n + 1) ≤ iterSmooth t s0 n)) ∧
    (iterSmooth t s0 n ≠ t →
      |t - iterSmooth t s0 (n + 1)| < |t - iterSmooth t s0 n|) := by
  have hstep : iterSmooth t s0 (n + 1) =
      iterSmooth t s0 n + (t - iterSmooth t s0 n) * (65/100) := by
    simp [iterSmooth, smoothStep, SMOOTHING_FACTOR]
  set s := iterSmooth t s0 n with hs
  rw [hstep]
  constructor
  · rcases le_total s t with h | h
    · left; constructor <;> nlinarith
    · right; constructor <;> nlinarith
  · intro hne
    have h7 : t - (s + (t - s) * (65/100)) = (t - s) * (7/20) := by ring
    rw [h7, abs_mul]
    have habs : (0 : ℚ) < |t - s| := abs_pos.mpr (sub_ne_zero.mpr (Ne.symm hne))
    have h720 : |(7 : ℚ)/20| = 7/20 := by norm_num
    rw [h720]
    nlinarith

/-- C7 witness: starting at 0 with target 1, the first step strictly
decreases the distance to the target. -/
theorem smoothing_monotone_no_overshoot_witness :
    iterSmooth 1 0 0 ≠ 1 ∧ |1 - iterSmooth 1 0 (0 + 1)| < |1 - iterSmooth 1 0 0| := by
  have h : iterSmooth 1 0 0 ≠ (1 : ℚ) := by norm_num [iterSmooth]
  exact ⟨h, (smoothing_monotone_no_overshoot 1 0 0).2 h⟩

lemma pumpStep_keeps_inv (s : PumpState)
    (h : s.inFlight.length ≤ 1 ∧ (s.isProcessing = false → s.inFlight = []))
    (e : PumpEvent) :
    (pumpStep s e).inFlight.length ≤ 1 ∧
      ((pumpStep s e).isProcessing = false → (pumpStep s e).inFlight = []) := by
  cases e with
  | deliver id =>
    by_cases hc : s.handsPresent = true ∧ s.isProcessing = false
    · have hnil : s.inFlight = [] := h.2 hc.2
      simp [pumpStep, hc, hnil]
    · simpa [pumpStep, hc] using h
  | complete =>
    rcases s with ⟨hp, ip, fl, st⟩
    rcases fl with _ | ⟨a, _ | ⟨b, tl⟩⟩
    · simp [pumpStep]
    · simp [pumpStep]
    · exfalso; simp at h

lemma runPump_inv_aux (evs : List PumpEvent) (s : PumpState)
    (h : s.inFlight.length ≤ 1 ∧ (s.isProcessing = false → s.inFlight = [])) :
    (evs.foldl pumpStep s).inFlight.length ≤ 1 := by
  induction evs generalizing s with
  | nil => exact h.1
  | cons e es ih => exact ih _ (pumpStep_keeps_inv s h e)

/-- C9: a frame delivered while the in-flight flag is set is dropped, not
queued: the pump state is unchanged and the frame is never sent; and from
the initial pump state, any sequence of deliveries and completions keeps at
most one frame in flight. -/
theorem backpressure_drops_inflight_frame :
    (∀ (s : PumpState) (id : ℕ), s.isProcessing = true →
      pumpStep s (.deliver id) = s ∧ (pumpStep s (.deliver id)).sent = s.sent) ∧
    (∀ evs : List PumpEvent, (runPump evs).inFlight.length ≤ 1) := by
  constructor
  · intro s id hbusy
    have : ¬ (s.handsPresent = true ∧ s.isProcessing = false) := by
      rintro ⟨-, hfalse⟩; rw [hbusy] at hfalse; exact absurd hfalse (by decide)
    constructor <;> simp [pumpStep, this]
  · intro evs
    exact runPump_inv_aux evs pumpInit (by simp [pumpInit])

/-- C9 witness: a concrete busy pump drops a delivered frame, and a concrete
event run keeps at most one frame in flight. -/
theorem backpressure_witness :
    pumpStep ⟨true, true, [5], [5]⟩ (.deliver 7) = ⟨true, true, [5], [5]⟩ ∧
    (runPump [.deliver 1, .deliver 2, .complete, .deliver 3]).inFlight.length ≤ 1 :=
  ⟨(backpressure_drops_inflight_frame.1 ⟨true, true, [5], [5]⟩ 7 rfl).1,
   backpressure_drops_inflight_frame.2 [.deliver 1, .deliver 2, .complete, .deliver 3]⟩

/-- C1: the swipe-up detector (modelled from the spec, see swipeUpStep) never
fires outside Browse mode, fires exactly when the window is full, its own
cooldown is zero, the upward displacement oldest.y - newest.y exceeds 0.25,
the horizontal displacement stays below 0.15 and the elapsed time is under
400 ms, and on fire it clears its history and starts its cooldown, so it
fires once per confirmed swipe. -/
theorem swipe_up_spec (histSize coolN : ℕ) (now : ℚ) (palm : Landmark)
    (st : SwipeState) :
    (swipeUpStep histSize coolN now palm false st).2 = false ∧
    ((swipeUpStep histSize coolN now palm true st).2 = true ↔
      st.cooldown = 0 ∧
      ∃ oldest newest,
        (pushWindow histSize now palm st.history).head? = some oldest ∧
        (pushWindow histSize now palm st.history).getLast? = some newest ∧
        histSize ≤ (pushWindow histSize now palm st.history).length ∧
        SWIPE_THRESHOLD < oldest.y - newest.y ∧
        |newest.x - oldest.x| < SWIPE_HORIZ_BOUND ∧
        newest.timestamp - oldest.timestamp < SWIPE_MAX_TIME) ∧
    ((swipeUpStep histSize coolN now palm true st).2 = true →
      (swipeUpStep histSize coolN now palm true st).1.history = [] ∧
      (swipeUpStep histSize coolN now palm true st).1.cooldown = coolN) := by
  refine ⟨by simp [swipeUpStep], ?_, ?_⟩
  · rcases Nat.eq_zero_or_pos st.cooldown with hcz | hcp
    · by_cases hlen : histSize ≤ (pushWindow histSize now palm st.history).length
      · rcases hhd : (pushWindow histSize now palm st.history).head? with _ | oldest
        · simp [swipeUpStep, hcz, hlen, hhd]
        · rcases hlast : (pushWindow histSize now palm st.history).getLast? with _ | newest
          · simp [swipeUpStep, hcz, hlen, hhd, hlast]
          · by_cases hcond : SWIPE_THRESHOLD < oldest.y - newest.y ∧
                |newest.x - oldest.x| < SWIPE_HORIZ_BOUND ∧
                newest.timestamp - oldest.timestamp < SWIPE_MAX_TIME
            · have hfire : (swipeUpStep histSize coolN now palm true st).2 = true := by
                simp [swipeUpStep, hcz, hlen, hhd, hlast, hcond]
              rw [hfire]
              exact ⟨fun _ => ⟨hcz, oldest, newest, rfl, rfl, hlen,
                hcond.1, hcond.2.1, hcond.2.2⟩, fun _ => rfl⟩
            · have hfire : (swipeUpStep histSize coolN now palm true st).2 = false := by
                simp [swipeUpStep, hcz, hlen, hhd, hlast, hcond]
              rw [hfire]
              constructor
              · intro hff; exact absurd hff (by simp)
              · rintro ⟨-, o, nw, ho, hn, -, hy, hx, ht⟩
                injection ho with ho'; injection hn with hn'
                subst ho'; subst hn'
                exact absurd ⟨hy, hx, ht⟩ hcond
      · simp [swipeUpStep, hcz, hlen]
    · simp [swipeUpStep, hcp, Nat.pos_iff_ne_zero.mp hcp]
  · intro hf
    rcases Nat.eq_zero_or_pos st.cooldown with hcz | hcp
    swap
    · exfalso; simp [swipeUpStep, hcp] at hf
    by_cases hlen : histSize ≤ (pushWindow histSize now palm st.history).length
    swap
    · exfalso; simp [swipeUpStep, hcz, hlen] at hf
    rcases hhd : (pushWindow histSize now palm st.history).head? with _ | oldest
    · exfalso; simp [swipeUpStep, hcz, hlen, hhd] at hf
    rcases hlast : (pushWindow histSize now palm st.history).getLast? with _ | newest
    · exfalso; simp [swipeUpStep, hcz, hlen, hhd, hlast] at hf
    by_cases hcond : SWIPE_THRESHOLD < oldest.y - newest.y ∧
        |newest.x - oldest.x| < SWIPE_HORIZ_BOUND ∧
        newest.timestamp - oldest.timestamp < SWIPE_MAX_TIME
    · simp [swipeUpStep, hcz, hlen, hhd, hlast, hcond]
    · exfalso; simp [swipeUpStep, hcz, hlen, hhd, hlast, hcond] at hf

/-- C1 witness: with a window of 12 and an 11-sample stationary history, a
palm sample 0.3 above the oldest one completes the window and fires; the
detector also does not fire in Scan mode from the same state. -/
theorem swipe_up_spec_witness :
    (swipeUpStep 12 75 11 ⟨1/2, 1/5, 11⟩ false
      ⟨List.replicate 11 ⟨1/2, 1/2, 0⟩, 0⟩).2 = false ∧
    ((swipeUpStep 12 75 11 ⟨1/2, 1/5, 11⟩ true
      ⟨List.replicate 11 ⟨1/2, 1/2, 0⟩, 0⟩).2 = true ↔
      (0 : ℕ) = 0 ∧
      ∃ oldest newest,
        (pushWindow 12 11 ⟨1/2, 1/5, 11⟩ (List.replicate 11 ⟨1/2, 1/2, 0⟩)).head? = some oldest ∧
        (pushWindow 12 11 ⟨1/2, 1/5, 11⟩ (List.replicate 11 ⟨1/2, 1/2, 0⟩)).getLast? = some newest ∧
        12 ≤ (pushWindow 12 11 ⟨1/2, 1/5, 11⟩ (List.replicate 11 ⟨1/2, 1/2, 0⟩)).length ∧
        SWIPE_THRESHOLD < oldest.y - newest.y ∧
        |newest.x - oldest.x| < SWIPE_HORIZ_BOUND ∧
        newest.timestamp - oldest.timestamp < SWIPE_MAX_TIME) :=
  ⟨(swipe_up_spec 12 75 11 ⟨1/2, 1/5, 11⟩ ⟨List.replicate 11 ⟨1/2, 1/2, 0⟩, 0⟩).1,
   (swipe_up_spec 12 75 11 ⟨1/2, 1/5, 11⟩ ⟨List.replicate 11 ⟨1/2, 1/2, 0⟩, 0⟩).2.1⟩

lemma browseGrabStep_events_wave (lms : List Landmark) (palm : Landmark)
    (s : HandState) (e : Events) :
    (browseGrabStep lms palm s e).events.wave = e.wave := by
  unfold browseGrabStep
  by_cases hn : s.lastGrabFrames + 1 = GRAB_HOLD_FRAMES <;>
    by_cases hf : s.lastFistState <;>
    (repeat' split) <;>
    simp [hn, hf, FrameOutcome.events]

lemma browseGrabStep_state_history (lms : List Landmark) (palm : Landmark)
    (s : HandState) (e : Events) :
    (browseGrabStep lms palm s e).state.handPositionHistory =
      s.handPositionHistory := by
  unfold browseGrabStep
  by_cases hn : s.lastGrabFrames + 1 = GRAB_HOLD_FRAMES <;>
    by_cases hf : s.lastFistState <;>
    (repeat' split) <;>
    simp [hn, hf, FrameOutcome.state]

lemma browseGrabStep_state_waveCooldown (lms : List Landmark) (palm : Landmark)
    (s : HandState) (e : Events) :
    (browseGrabStep lms palm s e).state.waveCooldownFrames =
      s.waveCooldownFrames := by
  unfold browseGrabStep
  by_cases hn : s.lastGrabFrames + 1 = GRAB_HOLD_FRAMES <;>
    by_cases hf : s.lastFistState <;>
    (repeat' split) <;>
    simp [hn, hf, FrameOutcome.state]

/-- C8: the wave detector is never evaluated in Browse mode (no wave event,
no history or wave-cooldown change on any browse frame); in Scan mode it
fires exactly when the 12-entry window is full, its cooldown is zero, the
horizontal displacement between oldest and newest exceeds 0.35, the vertical
displacement stays below 0.12 and the elapsed time is under 600 ms; on fire
it clears the history and starts the 75-frame cooldown, and it never fires
while its cooldown is positive. -/
theorem wave_detector_spec (now : ℚ) (palm : Landmark) (s : HandState) :
    (∀ (w h : ℚ) (res : Option (List Landmark)), s.browseMode = true →
      (onResults w h now res s).events.wave = false ∧
      (onResults w h now res s).state.handPositionHistory = s.handPositionHistory ∧
      (onResults w h now res s).state.waveCooldownFrames = s.waveCooldownFrames) ∧
    ((waveStep now palm s).2 = true ↔
      s.waveCooldownFrames = 0 ∧
      ∃ oldest newest,
        (pushWindow WAVE_HISTORY_SIZE now palm s.handPositionHistory).head? = some oldest ∧
        (pushWindow WAVE_HISTORY_SIZE now palm s.handPositionHistory).getLast? = some newest ∧
        WAVE_HISTORY_SIZE ≤ (pushWindow WAVE_HISTORY_SIZE now palm s.handPositionHistory).length ∧
        WAVE_THRESHOLD < |newest.x - oldest.x| ∧
        |newest.y - oldest.y| < 12/100 ∧
        newest.timestamp - oldest.timestamp < 600) ∧
    ((waveStep now palm s).2 = true →
      (waveStep now palm s).1.handPositionHistory = [] ∧
      (waveStep now palm s).1.waveCooldownFrames = WAVE_COOLDOWN) ∧
    (0 < s.waveCooldownFrames → (waveStep now palm s).2 = false) := by
  refine ⟨?_, ?_, ?_, ?_⟩
  · intro w h res hb
    cases res with
    | none => simp [onResults, noEvents, FrameOutcome.state, FrameOutcome.events]
    | some lms =>
      cases h0 : lms[0]? with
      | none => simp [onResults, h0, noEvents, FrameOutcome.state, FrameOutcome.events]
      | some palm0 =>
        simp only [onResults, h0]
        simp only [hb, if_true, ite_true]
        split
        · simp [noEvents, FrameOutcome.state, FrameOutcome.events]
        · simp [noEvents, browseGrabStep_events_wave, browseGrabStep_state_history,
            browseGrabStep_state_waveCooldown]
  · rcases Nat.eq_zero_or_pos s.waveCooldownFrames with hcz | hcp
    · by_cases hlen : WAVE_HISTORY_SIZE ≤
          (pushWindow WAVE_HISTORY_SIZE now palm s.handPositionHistory).length
      · rcases hhd : (pushWindow WAVE_HISTORY_SIZE now palm s.handPositionHistory).head?
            with _ | oldest
        · simp [waveStep, hcz, hlen, hhd]
        · rcases hlast : (pushWindow WAVE_HISTORY_SIZE now palm s.handPositionHistory).getLast?
              with _ | newest
          · simp [waveStep, hcz, hlen, hhd, hlast]
          · by_cases hcond : WAVE_THRESHOLD < |newest.x - oldest.x| ∧
                |newest.y - oldest.y| < 12/100 ∧
                newest.timestamp - oldest.timestamp < 600
            · have hfire : (waveStep now palm s).2 = true := by
                simp [waveStep, hcz, hlen, hhd, hlast, hcond]
              rw [hfire]
              exact ⟨fun _ => ⟨hcz, oldest, newest, rfl, rfl, hlen,
                hcond.1, hcond.2.1, hcond.2.2⟩, fun _ => rfl⟩
            · have hfire : (waveStep now palm s).2 = false := by
                simp [waveStep, hcz, hlen, hhd, hlast, hcond]
              rw [hfire]
              constructor
              · intro hff; exact absurd hff (by simp)
              · rintro ⟨-, o, nw, ho, hn, -, hxd, hyd, htd⟩
                injection ho with ho'; injection hn with hn'
                subst ho'; subst hn'
                exact absurd ⟨hxd, hyd, htd⟩ hcond
      · simp [waveStep, hcz, hlen]
    · simp [waveStep, hcp, Nat.pos_iff_ne_zero.mp hcp]
  · intro hf
    rcases Nat.eq_zero_or_pos s.waveCooldownFrames with hcz | hcp
    swap
    · exfalso; simp [waveStep, hcp] at hf
    by_cases hlen : WAVE_HISTORY_SIZE ≤
        (pushWindow WAVE_HISTORY_SIZE now palm s.handPositionHistory).length
    swap
    · exfalso; simp [waveStep, hcz, hlen] at hf
    rcases hhd : (pushWindow WAVE_HISTORY_SIZE now palm s.handPositionHistory).head?
        with _ | oldest
    · exfalso; simp [waveStep, hcz, hlen, hhd] at hf
    rcases hlast : (pushWindow WAVE_HISTORY_SIZE now palm s.handPositionHistory).getLast?
        with _ | newest
    · exfalso; simp [waveStep, hcz, hlen, hhd, hlast] at hf
    by_cases hcond : WAVE_THRESHOLD < |newest.x - oldest.x| ∧
        |newest.y - oldest.y| < 12/100 ∧
        newest.timestamp - oldest.timestamp < 600
    · simp [waveStep, hcz, hlen, hhd, hlast, hcond]
    · exfalso; simp [waveStep, hcz, hlen, hhd, hlast, hcond] at hf
  · intro hpos
    simp [waveStep, hpos]

/-- C8 witness: in Browse mode a concrete frame leaves the wave subsystem
untouched, and a concrete Scan-mode state with a positive wave cooldown does
not fire. -/
theorem wave_detector_spec_witness :
    (onResults 800 600 0 (some fistLandmarks) browseStart).events.wave = false ∧
    (waveStep 0 ⟨1/2, 1/2, 0⟩ { initialState with waveCooldownFrames := 5 }).2 = false :=
  ⟨((wave_detector_spec 0 ⟨1/2, 1/2, 0⟩ browseStart).1 800 600 (some fistLandmarks) rfl).1,
   (wave_detector_spec 0 ⟨1/2, 1/2, 0⟩ { initialState with waveCooldownFrames := 5 }).2.2.2
     (by norm_num)⟩

/-- C3 amended: in Scan mode the pinch detector keeps the hold and fire
shape of the Browse-mode fist machine — the hold counter increments on each
pinch frame, onGrab fires exactly when the incremented counter reaches
GRAB_HOLD_FRAMES and the counter then resets — with the geometric test
replaced by thumb-tip-to-index-fingertip distance below 0.045 and no
Release event; but it never writes the grab cooldown, so nothing suppresses
a re-fire GRAB_HOLD_FRAMES frames later. -/
theorem scan_pinch_hold_fire_no_cooldown (lm : List Landmark) (it tt : Landmark)
    (s : HandState) (e : Events)
    (h8 : lm[8]? = some it) (h4 : lm[4]? = some tt) (hg : e.grab = false) :
    ((scanPinchStep lm s e).events.grab = true ↔
      distSq it tt < sq PINCH_THRESHOLD ∧
      s.lastGrabFrames + 1 = GRAB_HOLD_FRAMES) ∧
    (scanPinchStep lm s e).events.openHand = e.openHand ∧
    (scanPinchStep lm s e).state.grabCooldownFrames = s.grabCooldownFrames ∧
    ((scanPinchStep lm s e).events.grab = true →
      (scanPinchStep lm s e).state.lastGrabFrames = 0) := by
  unfold scanPinchStep
  simp only [h8, h4]
  by_cases hd : distSq it tt < sq PINCH_THRESHOLD <;>
    by_cases hn : s.lastGrabFrames + 1 = GRAB_HOLD_FRAMES <;>
    simp [hd, hn, hg, FrameOutcome.state, FrameOutcome.events]

/-- C3 witness: a concrete pinch frame with the hold counter one short of
the threshold fires, by the characterization. -/
theorem scan_pinch_witness :
    (scanPinchStep fistLandmarks { initialState with lastGrabFrames := 2 }
        noEvents).events.grab = true ↔
      distSq ⟨1/2, 1/2, 0⟩ ⟨1/2, 1/2, 0⟩ < sq PINCH_THRESHOLD ∧
      ({ initialState with lastGrabFrames := 2 } : HandState).lastGrabFrames + 1 =
        GRAB_HOLD_FRAMES :=
  (scan_pinch_hold_fire_no_cooldown fistLandmarks ⟨1/2, 1/2, 0⟩ ⟨1/2, 1/2, 0⟩
    { initialState with lastGrabFrames := 2 } noEvents rfl rfl rfl).1

/-- C5 amended: in Browse mode, on a frame whose landmarks are present,
onOpenHand fires exactly when no grab cooldown is active, the geometric fist
test is false, and a confirmed grab is pending release (lastFistState set);
firing clears the pending flag, and the flag only becomes set when a
confirmed grab fires, so onOpenHand fires at most once per confirmed grab
and never during a sustained-open or sustained-closed run; a transition
falling inside the cooldown produces no firing on that frame. -/
theorem openHand_edge_characterization (w h now : ℚ) (lm : List Landmark)
    (palm i8 i12 i16 i20 thumb : Landmark) (s : HandState)
    (hb : s.browseMode = true)
    (h0 : lm[0]? = some palm) (h8 : lm[8]? = some i8) (h12 : lm[12]? = some i12)
    (h16 : lm[16]? = some i16) (h20 : lm[20]? = some i20)
    (h4 : lm[4]? = some thumb) :
    (onResults w h now (some lm) s).events.openHand =
      (decide (s.grabCooldownFrames = 0) && !isFistFrame lm && s.lastFistState) ∧
    ((onResults w h now (some lm) s).events.openHand = true →
      (onResults w h now (some lm) s).state.lastFistState = false) ∧
    ((onResults w h now (some lm) s).state.lastFistState = true →
      s.lastFistState = true ∨ (onResults w h now (some lm) s).events.grab = true) := by
  have hiff : isFistFrame lm = fistCheck palm i8 i12 i16 i20 thumb := by
    simp [isFistFrame, h0, h8, h12, h16, h20, h4]
  rcases Nat.eq_zero_or_pos s.grabCooldownFrames with hcz | hcp
  · by_cases hfist : fistCheck palm i8 i12 i16 i20 thumb = true
    · by_cases hn : s.lastGrabFrames + 1 = GRAB_HOLD_FRAMES <;>
        simp [onResults, h0, hb, hcz, hiff, hfist, hn, browseGrabStep,
          h8, h12, h16, h20, h4, noEvents, FrameOutcome.state, FrameOutcome.events]
    · by_cases hlf : s.lastFistState = true <;>
        simp [onResults, h0, hb, hcz, hiff, hfist, hlf, browseGrabStep,
          h8, h12, h16, h20, h4, noEvents, FrameOutcome.state, FrameOutcome.events]
  · simp [onResults, h0, hb, hiff, hcp, Nat.pos_iff_ne_zero.mp hcp,
      noEvents, FrameOutcome.state, FrameOutcome.events]

/-- C5 witness: with a pending release, zero cooldown and an open frame, the
characterization gives the openHand firing for a concrete state. -/
theorem openHand_edge_witness :
    (onResults 800 600 0 (some openLandmarks)
        { browseStart with lastFistState := true }).events.openHand =
      (decide (({ browseStart with lastFistState := true } : HandState).grabCooldownFrames = 0) &&
        !isFistFrame openLandmarks &&
        ({ browseStart with lastFistState := true } : HandState).lastFistState) :=
  (openHand_edge_characterization 800 600 0 openLandmarks ⟨1/2, 1/2, 0⟩
    ⟨9/10, 1/2, 0⟩ ⟨9/10, 1/2, 0⟩ ⟨9/10, 1/2, 0⟩ ⟨9/10, 1/2, 0⟩ ⟨9/10, 1/2, 0⟩
    { browseStart with lastFistState := true } rfl rfl rfl rfl rfl rfl rfl).1

lemma scanPinchStep_cursorMove (lm : List Landmark) (s : HandState) (e : Events) :
    (scanPinchStep lm s e).events.cursorMove = e.cursorMove := by
  unfold scanPinchStep
  by_cases hn : s.lastGrabFrames + 1 = GRAB_HOLD_FRAMES <;>
    (repeat' split) <;> simp [hn, FrameOutcome.events]

lemma waveStep_preserves_mode (now : ℚ) (palm : Landmark) (s : HandState) :
    (waveStep now palm s).1.browseMode = s.browseMode := by
  unfold waveStep
  dsimp only
  repeat' split
  all_goals simp

/-- C6 amended: destroyHands resets the smoother to (0, 0) and nothing
re-seeds it to the first observed target: the first cursor sample emitted
after a (re)start is one exponential-smoothing step from 0 toward the
remapped, clamped target — 0.65 times the target — not the target itself. -/
theorem first_sample_steps_from_origin (w h now : ℚ) (lm : List Landmark)
    (palm : Landmark) (h0 : lm[0]? = some palm) (s : HandState) :
    (onResults w h now (some lm) (destroyHands s)).events.cursorMove =
      some (smoothStep (remapTarget w h palm).1 0,
            smoothStep (remapTarget w h palm).2 0) := by
  unfold onResults
  simp [h0, destroyHands, scanPinchStep_cursorMove, waveStep_preserves_mode,
    noEvents]

/-- C6 witness: the amended first-sample law at a concrete restart frame. -/
theorem first_sample_witness :
    (onResults 800 600 0 (some fistLandmarks) (destroyHands initialState)).events.cursorMove =
      some (smoothStep (remapTarget 800 600 ⟨1/2, 1/2, 0⟩).1 0,
            smoothStep (remapTarget 800 600 ⟨1/2, 1/2, 0⟩).2 0) :=
  first_sample_steps_from_origin 800 600 0 fistLandmarks ⟨1/2, 1/2, 0⟩ rfl initialState

/-- C10: in Browse mode, while the grab cooldown is positive the handler
returns before fist evaluation: the frame fires neither onOpenHand nor
onGrab, only decrements the cooldown, and leaves the hold counter and the
pending-release flag untouched, so a fist-to-open transition inside the
cooldown defers its release to the first open frame processed after the
cooldown reaches zero — in the concrete run (grab confirmed on frame 3,
cooldown 25, hand open from frame 4 on) onOpenHand fires exactly once, on
frame 29 — and destroyHands clears the pending-release flag, so the
deferred release is never emitted if tracking is destroyed first. -/
theorem release_deferred_past_cooldown (w h now : ℚ) (lm : List Landmark)
    (palm : Landmark) (s : HandState)
    (hb : s.browseMode = true) (h0 : lm[0]? = some palm)
    (hcd : 0 < s.grabCooldownFrames) :
    (onResults w h now (some lm) s).events.openHand = false ∧
    (onResults w h now (some lm) s).events.grab = false ∧
    (onResults w h now (some lm) s).state.lastFistState = s.lastFistState ∧
    (onResults w h now (some lm) s).state.lastGrabFrames = s.lastGrabFrames ∧
    (onResults w h now (some lm) s).state.grabCooldownFrames =
      s.grabCooldownFrames - 1 ∧
    (destroyHands s).lastFistState = false ∧
    countOpenHands (releaseRun.take 28) = 0 ∧
    countOpenHands releaseRun = 1 ∧ releaseRun.length = 29 := by
  have hframe : (onResults w h now (some lm) s).events.openHand = false ∧
      (onResults w h now (some lm) s).events.grab = false ∧
      (onResults w h now (some lm) s).state.lastFistState = s.lastFistState ∧
      (onResults w h now (some lm) s).state.lastGrabFrames = s.lastGrabFrames ∧
      (onResults w h now (some lm) s).state.grabCooldownFrames =
        s.grabCooldownFrames - 1 := by
    simp [onResults, h0, hb, hcd, noEvents,
      FrameOutcome.state, FrameOutcome.events]
  have hrun : countOpenHands (releaseRun.take 28) = 0 ∧
      countOpenHands releaseRun = 1 ∧ releaseRun.length = 29 := by
    norm_num [countOpenHands, releaseRun, runEvents, runFrames, runStep,
      onResults, browseGrabStep, fistCheck, remapTarget, smoothStep, distSq, sq,
      fistLandmarks, openLandmarks, initialState, browseStart, setBrowseMode,
      noEvents, FrameOutcome.state, FrameOutcome.events, GRAB_THRESHOLD,
      GRAB_HOLD_FRAMES, GRAB_COOLDOWN, List.replicate]
  exact ⟨hframe.1, hframe.2.1, hframe.2.2.1, hframe.2.2.2.1, hframe.2.2.2.2,
    rfl, hrun.1, hrun.2.1, hrun.2.2⟩

/-- C10 witness: a concrete open frame during an active cooldown fires no
release. -/
theorem release_deferred_witness :
    (onResults 800 600 0 (some openLandmarks)
        { browseStart with grabCooldownFrames := 25, lastFistState := true }).events.openHand =
      false :=
  (release_deferred_past_cooldown 800 600 0 openLandmarks ⟨1/2, 1/2, 0⟩
    { browseStart with grabCooldownFrames := 25, lastFistState := true }
    rfl rfl (by norm_num)).1

end Hand
